import Mathlib

/-!
Verification of the CRIMAC-dataloader cruise data-access layer and patch
extraction contracts: a shallow embedding of `src/cruise/base.py` (school-box
queries, category catalog, slice defaults) together with a spec-modelled
embedding of the cropping utilities referenced by the tests.
-/

namespace Crimac

/-- One row of the school-box table (`{name}_labels.csv` loaded into a
dataframe), with the columns used by `get_school_boxes`. -/
structure SchoolBox where
  startpingindex : Int
  endpingindex : Int
  upperdeptindex : Int
  lowerdeptindex : Int
  category : Int
deriving DecidableEq, Repr

/-- The `categories` argument of `get_school_boxes` /
`get_annotation_slice`: Python `None`, a single `int`, or a list. -/
inductive CatArg where
  | noneArg : CatArg
  | single : Int → CatArg
  | list : List Int → CatArg
deriving DecidableEq, Repr

/-- The exceptions the embedded methods can raise:
`annotationsNotFound` is the `FileNotFoundError` raised by `categories()`
when `_annotations is None`; `missingTableAttributeError` is the
`AttributeError` raised when `.loc` is accessed on a `_school_box_df`
that is `None`. -/
inductive CruiseError where
  | annotationsNotFound : CruiseError
  | missingTableAttributeError : CruiseError
deriving DecidableEq, Repr

/-- The state of a `Cruise` relevant to the school-box and category
operations: `annotationCategoryValues` models
`self._annotations.category.values` (`Option.none` when the annotation
zarr was not loaded), `schoolBoxTable` models `self._school_box_df`
(`Option.none` when the CSV was not loaded). -/
structure Cruise where
  annotationCategoryValues : Option (List Int)
  schoolBoxTable : Option (List SchoolBox)
deriving Repr

/-- `Cruise.school_boxes_available` (base.py line 76). -/
def school_boxes_available (c : Cruise) : Bool :=
  c.schoolBoxTable.isSome

/-- `Cruise.annotations_available` (base.py line 70). -/
def annotations_available (c : Cruise) : Bool :=
  c.annotationCategoryValues.isSome

/-- `Cruise.categories` (base.py lines 82-87): raises when annotations are
missing, otherwise `sorted([cat for cat in categories if cat != -1])`. -/
def categories (c : Cruise) : Except CruiseError (List Int) :=
  match c.annotationCategoryValues with
  | Option.none => Except.error CruiseError.annotationsNotFound
  | Option.some cats =>
      Except.ok (List.insertionSort (fun a b => a ≤ b)
        (cats.filter (fun cat => decide (cat ≠ -1))))

/-- The category-argument normalisation inside `get_school_boxes`
(base.py lines 136-139): `None` defaults to `self.categories()`, an
`int` becomes a singleton list. -/
def resolveCategories (c : Cruise) : CatArg → Except CruiseError (List Int)
  | CatArg.noneArg => categories c
  | CatArg.single k => Except.ok [k]
  | CatArg.list ks => Except.ok ks

/-- The four window filters of `get_school_boxes` (base.py lines 127-134),
applied in source order; a `None` bound applies no filter. -/
def windowFilter (df : List SchoolBox) (sp ep sr er : Option Int) :
    List SchoolBox :=
  let d1 := match sp with
    | Option.some s => df.filter (fun r => decide (s ≤ r.endpingindex))
    | Option.none => df
  let d2 := match ep with
    | Option.some e => d1.filter (fun r => decide (r.startpingindex < e))
    | Option.none => d1
  let d3 := match sr with
    | Option.some s => d2.filter (fun r => decide (s ≤ r.lowerdeptindex))
    | Option.none => d2
  match er with
  | Option.some e => d3.filter (fun r => decide (r.upperdeptindex < e))
  | Option.none => d3

/-- `Cruise.get_school_boxes` (base.py lines 124-143). When the table was
loaded, the window filters run, then the category argument is resolved
(possibly raising from `categories()`), then rows are kept by
`df.category.isin(categories)`. When the table is `None`, the first
`df.loc` access raises `AttributeError`; if no window bound was given that
access only happens after the category argument was resolved, so a failing
`categories()` call raises first. -/
def get_school_boxes (c : Cruise) (sp ep sr er : Option Int)
    (cats : CatArg) : Except CruiseError (List SchoolBox) :=
  match c.schoolBoxTable with
  | Option.some df =>
      let survivors := windowFilter df sp ep sr er
      match resolveCategories c cats with
      | Except.error e => Except.error e
      | Except.ok ks =>
          Except.ok (survivors.filter (fun r => ks.contains r.category))
  | Option.none =>
      if sp.isSome || ep.isSome || sr.isSome || er.isSome then
        Except.error CruiseError.missingTableAttributeError
      else
        match resolveCategories c cats with
        | Except.error e => Except.error e
        | Except.ok _ => Except.error CruiseError.missingTableAttributeError

example :
    get_school_boxes (Cruise.mk (Option.some [1, 27, -1])
        (Option.some [SchoolBox.mk 2 5 1 4 27]))
      (Option.some 0) (Option.some 10) (Option.some 0) (Option.some 10)
      CatArg.noneArg = Except.ok [SchoolBox.mk 2 5 1 4 27] := by
  rfl

/-- The ping/range extents of a cruise (`num_pings()` / `num_ranges()`,
base.py lines 64-68). -/
structure CruiseDims where
  num_pings : Nat
  num_ranges : Nat
deriving DecidableEq, Repr

/-- The range-axis bounds `get_sv_slice` passes to
`isel(range=slice(start_range, end_range))` (base.py lines 96-99): a
`None` start defaults to `0`, a `None` end defaults to
`num_ranges() + 1`. -/
def get_sv_slice_range_bounds (c : CruiseDims)
    (start_range end_range : Option Nat) : Nat × Nat :=
  (start_range.getD 0, end_range.getD (c.num_ranges + 1))

/-- The range-axis bounds `get_annotation_slice` passes to
`isel(range=slice(start_range, end_range))` (base.py lines 112-115): a
`None` start defaults to `0`, a `None` end defaults to `num_ranges()`. -/
def get_annotation_slice_range_bounds (c : CruiseDims)
    (start_range end_range : Option Nat) : Nat × Nat :=
  (start_range.getD 0, end_range.getD c.num_ranges)

/-- Python slice semantics on an axis of length `axisLen`: the indices
selected by `slice(bounds.1, bounds.2)` with non-negative bounds, i.e.
those `i < axisLen` with `bounds.1 ≤ i < bounds.2` (an end bound past the
axis length is clamped, not an error). -/
def iselRangeIndices (bounds : Nat × Nat) (axisLen : Nat) : List Nat :=
  (List.range axisLen).filter (fun i => decide (bounds.1 ≤ i ∧ i < bounds.2))

/-- The data of a cruise seen by the cropping utilities: the frequency
catalog, the extents, and the backscatter volume as a function of
(frequency, ping index, range index), with an arbitrary cell type `V`. -/
structure CruiseGrid (V : Type) where
  frequencies : List Int
  num_pings : Nat
  num_ranges : Nat
  sv : Int → Nat → Nat → V

/-- The error a crop operation raises when a requested frequency is not in
the survey catalog. -/
inductive CropError where
  | unknownFrequency : CropError
deriving DecidableEq, Repr

/-- The half-open survey-space window along one axis for a centered patch:
`[center - size // 2, center - size // 2 + size)`, so the window always has
exactly `size` pixels and matches the spec's `[center - size//2,
center + size//2)` when `size` is even. -/
def cropWindow (center : Int) (size : Nat) : Int × Int :=
  (center - (size : Int) / 2, center - (size : Int) / 2 + (size : Int))

/-- One output cell of the crop at frequency `f`, output row `i`, output
column `j`: the survey value when the corresponding survey pixel is
inside `[0, num_pings) × [0, num_ranges)`, the boundary value
otherwise. -/
def cropCell {V : Type} (c : CruiseGrid V) (center : Int × Int)
    (patch : Nat × Nat) (boundary_val : V) (f : Int) (i j : Nat) : V :=
  let p : Int := (cropWindow center.1 patch.1).1 + (i : Int)
  let r : Int := (cropWindow center.2 patch.2).1 + (j : Int)
  if 0 ≤ p ∧ p < (c.num_pings : Int) ∧ 0 ≤ r ∧ r < (c.num_ranges : Int) then
    c.sv f p.toNat r.toNat
  else boundary_val

/-- The boundary-padded output volume of a crop: one `height × width`
plane per selected frequency, each cell filled by `cropCell`. -/
def cropGrid {V : Type} (c : CruiseGrid V) (center : Int × Int)
    (patch : Nat × Nat) (fs : List Int) (boundary_val : V) :
    List (List (List V)) :=
  fs.map (fun f =>
    (List.range patch.1).map (fun i =>
      (List.range patch.2).map (fun j =>
        cropCell c center patch boundary_val f i j)))

/-- Modelled from the spec: `crop_data` of `utils/cropping.py`, which is
not part of the provided sources (only its tests are). Per spec §4.1: the
requested frequencies must be a subset of the survey's catalog (else
UnknownFrequency), `frequencies=None` defaults to the full list; the
output is a `(len(frequencies), height, width)` volume pre-filled with
`boundary_val`, into which every requested-window pixel that lies inside
`[0, num_pings) × [0, num_ranges)` is copied at its window offset
(`cropGrid` / `cropCell`). -/
def crop_data {V : Type} (c : CruiseGrid V) (center : Int × Int)
    (patch : Nat × Nat) (freqs : Option (List Int)) (boundary_val : V) :
    Except CropError (List (List (List V))) :=
  let fs := freqs.getD c.frequencies
  if fs.all (fun f => c.frequencies.contains f) then
    Except.ok (cropGrid c center patch fs boundary_val)
  else Except.error CropError.unknownFrequency

example :
    crop_data (CruiseGrid.mk [18, 38] 2 2 (fun f p r => f + p + r))
      (1, 1) (2, 2) (Option.some [38]) (-1)
      = Except.ok [[[38, 39], [39, 40]]] := by
  rfl

example :
    crop_data (CruiseGrid.mk [18, 38] 2 2 (fun f p r => f + p + r))
      (5, 5) (2, 2) Option.none (-1)
      = Except.ok [[[-1, -1], [-1, -1]], [[-1, -1], [-1, -1]]] := by
  rfl

/-! ## Concrete fixtures used by counterexamples and witnesses -/

/-- A school box whose `endpingindex` exactly equals a window's
`start_ping` bound. -/
def abuttingBox : SchoolBox :=
  SchoolBox.mk (-5) 0 2 8 1

/-- A cruise with catalog `[1, 27]` and a single-row school-box table. -/
def cruiseFix : Cruise :=
  Cruise.mk (Option.some [1, 27, -1]) (Option.some [abuttingBox])

/-! ## C1 -/

/-- Claim C1 counterexample: with the window `[0, 10) × [0, 10)`, the box
whose `endpingindex` equals `start_ping = 0` is returned by
`get_school_boxes`, although the claimed strict predicate
`endpingindex > start_ping` rejects it: the code filters with
`endpingindex >= start_ping`, so an abutting box is included, not
excluded. -/
theorem get_school_boxes_abutting_included :
    get_school_boxes cruiseFix (Option.some 0) (Option.some 10)
        (Option.some 0) (Option.some 10) (CatArg.list [1])
      = Except.ok [abuttingBox]
    ∧ ¬ (abuttingBox.endpingindex > 0) := by
  constructor
  · rfl
  · decide

/-- Claim C1 (amended): with all four window bounds given, the surviving
rows are exactly those with `endpingindex ≥ start_ping`,
`startpingindex < end_ping`, `lowerdeptindex ≥ start_range` and
`upperdeptindex < end_range` (non-strict at the two start bounds), whose
category is in the requested list: a box abutting the start edge is
included. -/
theorem get_school_boxes_window_predicate (c : Cruise) (df : List SchoolBox)
    (sp ep sr er : Int) (ks : List Int)
    (hdf : c.schoolBoxTable = Option.some df) :
    get_school_boxes c (Option.some sp) (Option.some ep) (Option.some sr)
        (Option.some er) (CatArg.list ks)
      = Except.ok (df.filter (fun r =>
          decide (sp ≤ r.endpingindex ∧ r.startpingindex < ep ∧
            sr ≤ r.lowerdeptindex ∧ r.upperdeptindex < er ∧
            r.category ∈ ks))) := by
  simp only [get_school_boxes, windowFilter, resolveCategories, hdf]
  rw [List.filter_filter, List.filter_filter, List.filter_filter,
    List.filter_filter]
  congr 1
  apply List.filter_congr
  intro r _
  rw [Bool.eq_iff_iff]
  simp only [List.contains, Bool.and_eq_true, decide_eq_true_eq,
    List.elem_eq_mem]
  tauto

/-- Claim C1 witness: the amended predicate evaluated on the fixture. -/
theorem get_school_boxes_window_predicate_witness :
    cruiseFix.schoolBoxTable = Option.some [abuttingBox] ∧
    get_school_boxes cruiseFix (Option.some 0) (Option.some 10)
        (Option.some 0) (Option.some 10) (CatArg.list [1])
      = Except.ok ([abuttingBox].filter (fun r =>
          decide ((0 : Int) ≤ r.endpingindex ∧ r.startpingindex < 10 ∧
            (0 : Int) ≤ r.lowerdeptindex ∧ r.upperdeptindex < 10 ∧
            r.category ∈ [(1 : Int)]))) :=
  ⟨rfl, get_school_boxes_window_predicate cruiseFix [abuttingBox]
    0 10 0 10 [1] rfl⟩

/-! ## C2 -/

/-- Claim C2 counterexample: `999` is not in the catalog `[1, 27]` of
`cruiseFix`, yet `get_school_boxes` with `categories=999` returns
`Except.ok []` — the unknown category is silently dropped by
`df.category.isin(categories)`, no error is surfaced. -/
theorem get_school_boxes_unknown_category_silent :
    categories cruiseFix = Except.ok [1, 27]
    ∧ (999 : Int) ∉ [(1 : Int), 27]
    ∧ get_school_boxes cruiseFix Option.none Option.none Option.none
        Option.none (CatArg.single 999) = Except.ok [] := by
  refine ⟨rfl, by decide, rfl⟩

/-- Claim C2 (amended): a requested category absent from the survey's
catalog is silently dropped, not an error: with the school-box table
loaded, a query with an explicit category list always succeeds, returning
the window-surviving rows whose category is in the requested list
(possibly the empty list). -/
theorem get_school_boxes_explicit_categories_no_error (c : Cruise)
    (df : List SchoolBox) (sp ep sr er : Option Int) (ks : List Int)
    (hdf : c.schoolBoxTable = Option.some df) :
    get_school_boxes c sp ep sr er (CatArg.list ks)
      = Except.ok ((windowFilter df sp ep sr er).filter
          (fun r => ks.contains r.category)) := by
  simp [get_school_boxes, resolveCategories, hdf]

/-- Claim C2 witness: querying `cruiseFix` with the unknown category list
`[999]` succeeds with the (empty) filtered row list. -/
theorem get_school_boxes_explicit_categories_no_error_witness :
    cruiseFix.schoolBoxTable = Option.some [abuttingBox] ∧
    get_school_boxes cruiseFix Option.none Option.none Option.none
        Option.none (CatArg.list [999])
      = Except.ok ((windowFilter [abuttingBox] Option.none Option.none
          Option.none Option.none).filter
          (fun r => [(999 : Int)].contains r.category)) :=
  ⟨rfl, get_school_boxes_explicit_categories_no_error cruiseFix
    [abuttingBox] Option.none Option.none Option.none Option.none
    [999] rfl⟩

/-! ## C3 -/

/-- Claim C3: when the school-box table was not loaded
(`school_boxes_available()` is false), every `get_school_boxes` call
fails with an error — the `.loc` access on the missing dataframe (or,
for an all-default call, the `categories()` lookup) raises — and no
substitute result is ever returned. -/
theorem get_school_boxes_missing_table_errors (c : Cruise)
    (sp ep sr er : Option Int) (cats : CatArg)
    (hdf : c.schoolBoxTable = Option.none) :
    school_boxes_available c = false ∧
    ∃ e, get_school_boxes c sp ep sr er cats = Except.error e := by
  refine ⟨by simp [school_boxes_available, hdf], ?_⟩
  simp only [get_school_boxes, hdf]
  split
  · exact ⟨CruiseError.missingTableAttributeError, rfl⟩
  · cases h : resolveCategories c cats with
    | error e => exact ⟨e, by simp [h]⟩
    | ok ks => exact ⟨CruiseError.missingTableAttributeError, by simp [h]⟩

/-- A cruise whose school-box table was not loaded. -/
def cruiseNoBoxes : Cruise :=
  Cruise.mk (Option.some [1, 27, -1]) Option.none

/-- Claim C3 witness: the missing-table query on a concrete cruise fails. -/
theorem get_school_boxes_missing_table_errors_witness :
    cruiseNoBoxes.schoolBoxTable = Option.none ∧
    (school_boxes_available cruiseNoBoxes = false ∧
      ∃ e, get_school_boxes cruiseNoBoxes (Option.some 0) (Option.some 10)
        Option.none Option.none (CatArg.single 1) = Except.error e) :=
  ⟨rfl, get_school_boxes_missing_table_errors cruiseNoBoxes
    (Option.some 0) (Option.some 10) Option.none Option.none
    (CatArg.single 1) rfl⟩

/-! ## C7 -/

/-- Claim C7: an integer category argument behaves exactly like the
singleton list (unconditionally), and `categories=None` behaves exactly
like passing the cruise's full category list `cs` (whenever
`categories()` returns `cs`). -/
theorem get_school_boxes_category_arg_equiv (c : Cruise)
    (sp ep sr er : Option Int) (k : Int) (cs : List Int)
    (hcs : categories c = Except.ok cs) :
    get_school_boxes c sp ep sr er (CatArg.single k)
      = get_school_boxes c sp ep sr er (CatArg.list [k]) ∧
    get_school_boxes c sp ep sr er CatArg.noneArg
      = get_school_boxes c sp ep sr er (CatArg.list cs) := by
  constructor
  · rfl
  · cases hc : c.schoolBoxTable <;>
      simp [get_school_boxes, resolveCategories, hcs, hc]

/-- Claim C7 witness: both equivalences evaluated on the fixture. -/
theorem get_school_boxes_category_arg_equiv_witness :
    categories cruiseFix = Except.ok [1, 27] ∧
    (get_school_boxes cruiseFix (Option.some 0) (Option.some 10)
        Option.none Option.none (CatArg.single 1)
      = get_school_boxes cruiseFix (Option.some 0) (Option.some 10)
        Option.none Option.none (CatArg.list [1]) ∧
    get_school_boxes cruiseFix (Option.some 0) (Option.some 10)
        Option.none Option.none CatArg.noneArg
      = get_school_boxes cruiseFix (Option.some 0) (Option.some 10)
        Option.none Option.none (CatArg.list [1, 27])) :=
  ⟨rfl, get_school_boxes_category_arg_equiv cruiseFix
    (Option.some 0) (Option.some 10) Option.none Option.none 1 [1, 27] rfl⟩

/-! ## C9 -/

/-- Claim C9: with annotations not loaded but the school-box table
present (`school_boxes_available()` true), `get_school_boxes` with
`categories=None` still fails, because it delegates the default to
`categories()`, which raises when `_annotations is None`. -/
theorem get_school_boxes_default_needs_annotations (c : Cruise)
    (df : List SchoolBox) (sp ep sr er : Option Int)
    (hann : c.annotationCategoryValues = Option.none)
    (hdf : c.schoolBoxTable = Option.some df) :
    school_boxes_available c = true ∧
    get_school_boxes c sp ep sr er CatArg.noneArg
      = Except.error CruiseError.annotationsNotFound := by
  refine ⟨by simp [school_boxes_available, hdf], ?_⟩
  simp [get_school_boxes, resolveCategories, categories, hdf, hann]

/-- A cruise with a school-box table but no annotation volume. -/
def cruiseNoAnn : Cruise :=
  Cruise.mk Option.none (Option.some [abuttingBox])

/-- Claim C9 witness: the default-category query on `cruiseNoAnn` fails
with the annotations error although the table is available. -/
theorem get_school_boxes_default_needs_annotations_witness :
    cruiseNoAnn.annotationCategoryValues = Option.none ∧
    cruiseNoAnn.schoolBoxTable = Option.some [abuttingBox] ∧
    (school_boxes_available cruiseNoAnn = true ∧
      get_school_boxes cruiseNoAnn Option.none Option.none Option.none
        Option.none CatArg.noneArg
        = Except.error CruiseError.annotationsNotFound) :=
  ⟨rfl, rfl, get_school_boxes_default_needs_annotations cruiseNoAnn
    [abuttingBox] Option.none Option.none Option.none Option.none rfl rfl⟩

/-! ## C8 -/

/-- Claim C8: with the annotation volume loaded, `categories()` succeeds
and returns a list that is sorted ascending and whose members are exactly
the annotation volume's category values other than the `-1` sentinel. -/
theorem categories_sorted_excludes_sentinel (c : Cruise) (raw : List Int)
    (hraw : c.annotationCategoryValues = Option.some raw) :
    ∃ l, categories c = Except.ok l ∧
      List.Sorted (fun a b => a ≤ b) l ∧
      (∀ x, x ∈ l ↔ x ∈ raw ∧ x ≠ -1) := by
  refine ⟨List.insertionSort (fun a b => a ≤ b)
      (raw.filter (fun cat => decide (cat ≠ -1))), ?_, ?_, ?_⟩
  · unfold categories
    rw [hraw]
  · exact List.sorted_insertionSort _ _
  · intro x
    simp [List.mem_insertionSort, List.mem_filter]

/-- Claim C8 witness: the catalog of `cruiseFix` is sorted and
sentinel-free. -/
theorem categories_sorted_excludes_sentinel_witness :
    cruiseFix.annotationCategoryValues = Option.some [1, 27, -1] ∧
    ∃ l, categories cruiseFix = Except.ok l ∧
      List.Sorted (fun a b => a ≤ b) l ∧
      (∀ x, x ∈ l ↔ x ∈ [(1 : Int), 27, -1] ∧ x ≠ -1) :=
  ⟨rfl, categories_sorted_excludes_sentinel cruiseFix [1, 27, -1] rfl⟩

/-! ## C6 -/

/-- Claim C6: for a category `k` present in the catalog, the query with
`categories=[k]` returns exactly the window-surviving rows whose category
equals `k`; that list equals the unfiltered (`categories=None`) result
filtered to category `k`, is a sublist of the unfiltered result, and is
no longer than it. -/
theorem get_school_boxes_single_category_subset (c : Cruise)
    (df : List SchoolBox) (sp ep sr er : Option Int) (k : Int)
    (cs : List Int) (hdf : c.schoolBoxTable = Option.some df)
    (hcs : categories c = Except.ok cs) (hk : k ∈ cs) :
    ∃ unfiltered,
      get_school_boxes c sp ep sr er CatArg.noneArg
        = Except.ok unfiltered ∧
      get_school_boxes c sp ep sr er (CatArg.list [k])
        = Except.ok ((windowFilter df sp ep sr er).filter
            (fun r => decide (r.category = k))) ∧
      (windowFilter df sp ep sr er).filter (fun r => decide (r.category = k))
        = unfiltered.filter (fun r => decide (r.category = k)) ∧
      List.Sublist (unfiltered.filter (fun r => decide (r.category = k)))
        unfiltered ∧
      (unfiltered.filter (fun r => decide (r.category = k))).length
        ≤ unfiltered.length := by
  refine ⟨(windowFilter df sp ep sr er).filter
    (fun r => cs.contains r.category), ?_, ?_, ?_,
    List.filter_sublist _, List.length_filter_le _ _⟩
  · simp [get_school_boxes, resolveCategories, hcs, hdf]
  · simp only [get_school_boxes, resolveCategories, hdf]
    congr 1
    apply List.filter_congr
    intro r _
    rw [Bool.eq_iff_iff]
    simp [List.contains, List.elem_eq_mem, eq_comm]
  · rw [List.filter_filter]
    apply List.filter_congr
    intro r _
    rw [Bool.eq_iff_iff]
    simp only [Bool.and_eq_true, decide_eq_true_eq, List.contains,
      List.elem_eq_mem]
    constructor
    · intro hrk
      refine ⟨hrk, ?_⟩
      rw [hrk]
      exact hk
    · intro hh
      exact hh.1

/-- Claim C6 witness: filtering `cruiseFix`'s boxes to category `1`. -/
theorem get_school_boxes_single_category_subset_witness :
    cruiseFix.schoolBoxTable = Option.some [abuttingBox] ∧
    categories cruiseFix = Except.ok [1, 27] ∧
    (1 : Int) ∈ [(1 : Int), 27] ∧
    ∃ unfiltered,
      get_school_boxes cruiseFix (Option.some 0) (Option.some 10)
          (Option.some 0) (Option.some 10) CatArg.noneArg
        = Except.ok unfiltered ∧
      get_school_boxes cruiseFix (Option.some 0) (Option.some 10)
          (Option.some 0) (Option.some 10) (CatArg.list [1])
        = Except.ok ((windowFilter [abuttingBox] (Option.some 0)
            (Option.some 10) (Option.some 0) (Option.some 10)).filter
            (fun r => decide (r.category = 1))) ∧
      (windowFilter [abuttingBox] (Option.some 0) (Option.some 10)
          (Option.some 0) (Option.some 10)).filter
          (fun r => decide (r.category = 1))
        = unfiltered.filter (fun r => decide (r.category = 1)) ∧
      List.Sublist (unfiltered.filter (fun r => decide (r.category = 1)))
        unfiltered ∧
      (unfiltered.filter (fun r => decide (r.category = 1))).length
        ≤ unfiltered.length :=
  ⟨rfl, rfl, by decide, get_school_boxes_single_category_subset cruiseFix
    [abuttingBox] (Option.some 0) (Option.some 10) (Option.some 0)
    (Option.some 10) 1 [1, 27] rfl rfl (by decide)⟩

/-! ## C10 -/

/-- Claim C10: with `start_range=None` and `end_range=None`, the range
window of `get_sv_slice` (default end `num_ranges() + 1`) and of
`get_annotation_slice` (default end `num_ranges()`) select exactly the
same indices of the range axis — the whole of `[0, num_ranges)` — so the
two default slices have equal range length `num_ranges`. -/
theorem slice_default_range_extent_agree (c : CruiseDims) :
    iselRangeIndices (get_sv_slice_range_bounds c Option.none Option.none)
        c.num_ranges
      = iselRangeIndices
          (get_annotation_slice_range_bounds c Option.none Option.none)
          c.num_ranges
    ∧ (iselRangeIndices
        (get_sv_slice_range_bounds c Option.none Option.none)
        c.num_ranges).length = c.num_ranges := by
  have h : ∀ m, c.num_ranges ≤ m →
      iselRangeIndices (0, m) c.num_ranges = List.range c.num_ranges := by
    intro m hm
    apply List.filter_eq_self.mpr
    intro a ha
    rw [List.mem_range] at ha
    simp only [decide_eq_true_eq]
    omega
  have hsv : get_sv_slice_range_bounds c Option.none Option.none
      = (0, c.num_ranges + 1) := rfl
  have hann : get_annotation_slice_range_bounds c Option.none Option.none
      = (0, c.num_ranges) := rfl
  constructor
  · rw [hsv, hann, h (c.num_ranges + 1) (by omega),
      h c.num_ranges (by omega)]
  · rw [hsv, h (c.num_ranges + 1) (by omega), List.length_range]

/-! ## C4 -/

/-- Claim C4: for every survey, center, positive patch size and valid
non-empty frequency selection `F`, `crop_data` succeeds with an output of
shape exactly `(F.length, height, width)` — however far the window
extends outside the survey — and every output element is either the
boundary value or a survey value read at a pixel strictly inside both the
survey extent and the requested window. -/
theorem crop_data_shape_and_provenance {V : Type} (c : CruiseGrid V)
    (center : Int × Int) (patch : Nat × Nat) (F : List Int)
    (boundary_val : V)
    (hpos : 0 < patch.1 ∧ 0 < patch.2) (hne : F ≠ [])
    (hsub : ∀ f ∈ F, f ∈ c.frequencies) :
    ∃ out, crop_data c center patch (Option.some F) boundary_val
        = Except.ok out ∧
      out.length = F.length ∧
      (∀ plane ∈ out, plane.length = patch.1 ∧
        ∀ row ∈ plane, row.length = patch.2) ∧
      (∀ plane ∈ out, ∀ row ∈ plane, ∀ v ∈ row,
        v = boundary_val ∨
        ∃ f ∈ F, ∃ p r : Int,
          0 ≤ p ∧ p < (c.num_pings : Int) ∧
          0 ≤ r ∧ r < (c.num_ranges : Int) ∧
          (cropWindow center.1 patch.1).1 ≤ p ∧
          p < (cropWindow center.1 patch.1).2 ∧
          (cropWindow center.2 patch.2).1 ≤ r ∧
          r < (cropWindow center.2 patch.2).2 ∧
          v = c.sv f p.toNat r.toNat) := by
  have hif : (F.all (fun f => c.frequencies.contains f)) = true := by
    simp only [List.all_eq_true, List.contains, List.elem_eq_mem,
      decide_eq_true_eq]
    exact hsub
  refine ⟨cropGrid c center patch F boundary_val, ?_, ?_, ?_, ?_⟩
  · simp only [crop_data, Option.getD_some]
    rw [if_pos hif]
  · exact List.length_map _ _
  · intro plane hplane
    rw [cropGrid, List.mem_map] at hplane
    obtain ⟨f, hf, rfl⟩ := hplane
    refine ⟨by simp, ?_⟩
    intro row hrow
    rw [List.mem_map] at hrow
    obtain ⟨i, hi, rfl⟩ := hrow
    simp
  · intro plane hplane row hrow v hv
    rw [cropGrid, List.mem_map] at hplane
    obtain ⟨f, hf, rfl⟩ := hplane
    rw [List.mem_map] at hrow
    obtain ⟨i, hi, rfl⟩ := hrow
    rw [List.mem_map] at hv
    obtain ⟨j, hj, rfl⟩ := hv
    rw [List.mem_range] at hi
    rw [List.mem_range] at hj
    by_cases hc : 0 ≤ (cropWindow center.1 patch.1).1 + (i : Int) ∧
        (cropWindow center.1 patch.1).1 + (i : Int) < (c.num_pings : Int) ∧
        0 ≤ (cropWindow center.2 patch.2).1 + (j : Int) ∧
        (cropWindow center.2 patch.2).1 + (j : Int) < (c.num_ranges : Int)
    · right
      refine ⟨f, hf, (cropWindow center.1 patch.1).1 + (i : Int),
        (cropWindow center.2 patch.2).1 + (j : Int),
        hc.1, hc.2.1, hc.2.2.1, hc.2.2.2, by omega, ?_, by omega, ?_, ?_⟩
      · simp only [cropWindow]
        omega
      · simp only [cropWindow]
        omega
      · simp only [cropCell, cropWindow] at hc ⊢
        rw [if_pos]
        exact hc
    · left
      simp only [cropCell, cropWindow] at hc ⊢
      rw [if_neg]
      exact hc

/-- A small concrete survey grid over `Int` cells. -/
def cropFix : CruiseGrid Int :=
  CruiseGrid.mk [18, 38] 4 3 (fun f p r => f + p + r)

/-- Claim C4 witness: the shape/provenance guarantee instantiated on
`cropFix` with a singleton frequency selection. -/
theorem crop_data_shape_and_provenance_witness :
    ((0 : Nat) < 2 ∧ (0 : Nat) < 3) ∧ [(18 : Int)] ≠ [] ∧
    (∀ f ∈ [(18 : Int)], f ∈ cropFix.frequencies) ∧
    ∃ out, crop_data cropFix (1, 1) (2, 3) (Option.some [18]) (0 : Int)
        = Except.ok out ∧
      out.length = [(18 : Int)].length ∧
      (∀ plane ∈ out, plane.length = 2 ∧
        ∀ row ∈ plane, row.length = 3) ∧
      (∀ plane ∈ out, ∀ row ∈ plane, ∀ v ∈ row,
        v = (0 : Int) ∨
        ∃ f ∈ [(18 : Int)], ∃ p r : Int,
          0 ≤ p ∧ p < (cropFix.num_pings : Int) ∧
          0 ≤ r ∧ r < (cropFix.num_ranges : Int) ∧
          (cropWindow 1 2).1 ≤ p ∧ p < (cropWindow 1 2).2 ∧
          (cropWindow 1 3).1 ≤ r ∧ r < (cropWindow 1 3).2 ∧
          v = cropFix.sv f p.toNat r.toNat) :=
  ⟨⟨by decide, by decide⟩, by decide, by decide,
    crop_data_shape_and_provenance cropFix (1, 1) (2, 3) [18] 0
      ⟨by decide, by decide⟩ (by decide) (by decide)⟩

/-! ## C5 -/

/-- Claim C5: a window lying fully outside the valid survey extent is not
an error for `crop_data`: the call succeeds and returns a correctly
shaped output every element of which is the boundary value. -/
theorem crop_data_fully_outside_all_boundary {V : Type} (c : CruiseGrid V)
    (center : Int × Int) (patch : Nat × Nat) (boundary_val : V)
    (hpos : 0 < patch.1 ∧ 0 < patch.2)
    (hout : (cropWindow center.1 patch.1).2 ≤ 0 ∨
      (c.num_pings : Int) ≤ (cropWindow center.1 patch.1).1 ∨
      (cropWindow center.2 patch.2).2 ≤ 0 ∨
      (c.num_ranges : Int) ≤ (cropWindow center.2 patch.2).1) :
    ∃ out, crop_data c center patch Option.none boundary_val
        = Except.ok out ∧
      out.length = c.frequencies.length ∧
      (∀ plane ∈ out, plane.length = patch.1 ∧
        ∀ row ∈ plane, row.length = patch.2) ∧
      (∀ plane ∈ out, ∀ row ∈ plane, ∀ v ∈ row, v = boundary_val) := by
  have hif : (c.frequencies.all (fun f => c.frequencies.contains f))
      = true := by
    simp only [List.all_eq_true, List.contains, List.elem_eq_mem,
      decide_eq_true_eq]
    exact fun x hx => hx
  refine ⟨cropGrid c center patch c.frequencies boundary_val,
    ?_, ?_, ?_, ?_⟩
  · simp only [crop_data, Option.getD_none]
    rw [if_pos hif]
  · exact List.length_map _ _
  · intro plane hplane
    rw [cropGrid, List.mem_map] at hplane
    obtain ⟨f, hf, rfl⟩ := hplane
    refine ⟨by simp, ?_⟩
    intro row hrow
    rw [List.mem_map] at hrow
    obtain ⟨i, hi, rfl⟩ := hrow
    simp
  · intro plane hplane row hrow v hv
    rw [cropGrid, List.mem_map] at hplane
    obtain ⟨f, hf, rfl⟩ := hplane
    rw [List.mem_map] at hrow
    obtain ⟨i, hi, rfl⟩ := hrow
    rw [List.mem_map] at hv
    obtain ⟨j, hj, rfl⟩ := hv
    rw [List.mem_range] at hi
    rw [List.mem_range] at hj
    simp only [cropWindow] at hout
    simp only [cropCell, cropWindow]
    rw [if_neg]
    rintro ⟨h1, h2, h3, h4⟩
    omega

/-- Claim C5 witness: a window far past the ping extent of `cropFix`
yields an all-boundary patch of the right shape. -/
theorem crop_data_fully_outside_all_boundary_witness :
    ((0 : Nat) < 2 ∧ (0 : Nat) < 2) ∧
    ((cropWindow 100 2).2 ≤ 0 ∨
      (cropFix.num_pings : Int) ≤ (cropWindow 100 2).1 ∨
      (cropWindow 0 2).2 ≤ 0 ∨
      (cropFix.num_ranges : Int) ≤ (cropWindow 0 2).1) ∧
    ∃ out, crop_data cropFix (100, 0) (2, 2) Option.none (-1 : Int)
        = Except.ok out ∧
      out.length = cropFix.frequencies.length ∧
      (∀ plane ∈ out, plane.length = 2 ∧
        ∀ row ∈ plane, row.length = 2) ∧
      (∀ plane ∈ out, ∀ row ∈ plane, ∀ v ∈ row, v = (-1 : Int)) :=
  ⟨⟨by decide, by decide⟩, by decide,
    crop_data_fully_outside_all_boundary cropFix (100, 0) (2, 2) (-1)
      ⟨by decide, by decide⟩ (by decide)⟩

end Crimac
